import Mathlib

/-!
Shallow embedding of the EduPay (EduConnect) allocation core: the Mongoose
data model (`src/models/Donation.js`, `src/models/Request.js`,
`src/models/Payment.js`, `src/models/User.js`) and the route handlers that
mutate it (`src/routes/student.js` claim-donation, `src/routes/admin.js`
process-payment and the donor dashboard/requests handlers).

Identities (Mongo ObjectIds) and timestamps are modelled as `Nat`; money
amounts as `Int`; the database collections as lists of records; a Mongoose
`save()` of a loaded document as replacement of the record with the same id.
Fields that no verified handler reads or writes (images, quantity,
updatedAt, transactionId, ...) are omitted.
-/

namespace EduPay

/-- The `type` enum of the donation schema (`src/models/Donation.js`). -/
inductive Kind
  | laptop | books | fees | bag | shoes | notes | money | other
  deriving DecidableEq, Repr

/-- The `urgencyLevel` enum of the request schema (`src/models/Request.js`). -/
inductive Urgency
  | low | medium | high | critical
  deriving DecidableEq, Repr, Fintype

/-- The `status` enum of the request schema. -/
inductive RequestStatus
  | pending | inProgress | fulfilled | cancelled
  deriving DecidableEq, Repr

/-- The `status` enum of the donation schema. -/
inductive DonationStatus
  | available | reserved | donated | expired
  deriving DecidableEq, Repr

/-- The `status` enum of the payment schema (`src/models/Payment.js`). -/
inductive PaymentStatus
  | pending | approved | distributed | cancelled
  deriving DecidableEq, Repr

/-- The `distributionMethod` enum of the payment schema. -/
inductive DistributionMethod
  | full | split
  deriving DecidableEq, Repr

/-- A donation document (`src/models/Donation.js`). -/
structure Donation where
  id : Nat
  donor : Nat
  type : Kind
  description : String
  value : Int
  status : DonationStatus
  recipient : Option Nat
  donatedAt : Option Nat
  expiresAt : Nat
  createdAt : Nat
  deriving DecidableEq, Repr

/-- A request document (`src/models/Request.js`). -/
structure Request where
  id : Nat
  student : Nat
  type : Kind
  description : String
  urgencyLevel : Urgency
  amount : Int
  status : RequestStatus
  fulfilledBy : Option Nat
  fulfilledAt : Option Nat
  createdAt : Nat
  deriving DecidableEq, Repr

/-- One `{student, amount}` entry of a payment's `splitAmong` array. -/
structure SplitEntry where
  student : Nat
  amount : Int
  deriving DecidableEq, Repr

/-- A payment document (`src/models/Payment.js`). -/
structure Payment where
  id : Nat
  donor : Nat
  recipient : Option Nat
  amount : Int
  status : PaymentStatus
  processedBy : Option Nat
  processedAt : Option Nat
  distributionMethod : DistributionMethod
  splitAmong : List SplitEntry
  createdAt : Nat
  deriving DecidableEq, Repr

/-- The `donorInfo` sub-document of a user (`src/models/User.js`). -/
structure DonorInfo where
  totalDonations : Nat
  isRegularDonor : Bool
  deriving DecidableEq, Repr

/-- Replace the record carrying the id of `d` by `d`: the effect on a
collection of Mongoose `save()` on a loaded, mutated document. -/
def saveById {α : Type} (idOf : α → Nat) (l : List α) (d : α) : List α :=
  l.map fun x => if idOf x == idOf d then d else x

/-- Mongoose `save()` of a loaded, mutated donation document. -/
def saveDonation (l : List Donation) (d : Donation) : List Donation :=
  saveById Donation.id l d

/-- Mongoose `save()` of a loaded, mutated request document. -/
def saveRequest (l : List Request) (r : Request) : List Request :=
  saveById Request.id l r

/-- Mongoose `save()` of a loaded, mutated payment document. -/
def savePayment (l : List Payment) (p : Payment) : List Payment :=
  saveById Payment.id l p

/-- The mutable collections touched by the claim handler. -/
structure St where
  donations : List Donation
  requests : List Request
  deriving DecidableEq, Repr

/-- Outcome of `POST /student/claim-donation/:donationId`
(`src/routes/student.js` lines 110-180): either the success redirect or the
`Donation is no longer available` error redirect. -/
inductive ClaimResult
  | success | unavailable
  deriving DecidableEq, Repr

/-- The read-and-check phase of the claim handler (`src/routes/student.js`
lines 116-120): `await Donation.findById(donationId)` followed by the
synchronous check `!donation || donation.status !== 'available'`.  Returns
the loaded document when the check passes.  This is everything the handler
does before its first write. -/
def claimStep1 (st : St) (did : Nat) : Option Donation :=
  match st.donations.find? (fun x => x.id == did) with
  | some d => if d.status == DonationStatus.available then some d else none
  | none => none

/-- The request the claim handler synthesizes when the claimant has no
matching pending request (`src/routes/student.js` lines 148-157); schema
defaults fill `urgencyLevel` (`medium`), `amount` (`0`) and `createdAt`. -/
def claimedRequest (d : Donation) (claimant now newReqId : Nat) : Request :=
  { id := newReqId
    student := claimant
    type := d.type
    description := "Claimed: " ++ d.description
    urgencyLevel := Urgency.medium
    amount := 0
    status := RequestStatus.fulfilled
    fulfilledBy := some d.donor
    fulfilledAt := some now
    createdAt := now }

/-- The query `Request.findOne({student, type, status: 'pending'})` of
`src/routes/student.js` lines 136-140, as a predicate on stored requests. -/
def pendingMatch (claimant : Nat) (k : Kind) (r : Request) : Bool :=
  r.student == claimant && r.type == k && r.status == RequestStatus.pending

/-- The update applied to a found pending request (`src/routes/student.js`
lines 142-146): status `fulfilled`, the donation's donor as `fulfilledBy`,
the claim time as `fulfilledAt`. -/
def fulfilledVersion (r : Request) (donor now : Nat) : Request :=
  { r with
    status := RequestStatus.fulfilled
    fulfilledBy := some donor
    fulfilledAt := some now }

/-- Lines 135-158 of `src/routes/student.js`: look for an existing `pending`
request of the claimant with the donation's kind; fulfil it if found,
otherwise insert a new already-fulfilled request. -/
def fulfillMatchingRequest (st : St) (d : Donation) (claimant now newReqId : Nat) : St :=
  match st.requests.find? (pendingMatch claimant d.type) with
  | some r =>
      { st with requests := saveRequest st.requests (fulfilledVersion r d.donor now) }
  | none =>
      { st with requests := st.requests ++ [claimedRequest d claimant now newReqId] }

/-- The write phase of the claim handler (`src/routes/student.js` lines
122-158), run after `claimStep1` returned the loaded document `d`: set
`status = 'reserved'`, `recipient`, `donatedAt`, save the donation, then
fulfil or create the matching request. -/
def claimWrite (st : St) (d : Donation) (claimant now newReqId : Nat) : St :=
  let d' := { d with
    status := DonationStatus.reserved
    recipient := some claimant
    donatedAt := some now }
  let st1 : St := { st with donations := saveDonation st.donations d' }
  fulfillMatchingRequest st1 d claimant now newReqId

/-- The whole claim handler run without interference: the read-and-check
phase followed immediately by the write phase. -/
def claimDonation (st : St) (did claimant now newReqId : Nat) : St × ClaimResult :=
  match claimStep1 st did with
  | none => (st, ClaimResult.unavailable)
  | some d => (claimWrite st d claimant now newReqId, ClaimResult.success)

/-- Outcome of `POST /admin/process-payment/:paymentId` (`src/routes/admin.js`
lines 183-231): the 404 redirect, the approve success redirect, the reject
redirect, or the fall-through when `action` is neither value. -/
inductive ProcessResult
  | notFound | approvedOk | rejectedOk | noResponse
  deriving DecidableEq, Repr

/-- `POST /admin/process-payment/:paymentId` (`src/routes/admin.js` lines
183-231).  `action` and `distributionMethod` arrive as request-body strings;
`splitAmong` is the already-`JSON.parse`d split list.  Note the handler
loads the payment by id and applies the action to whatever status the
payment currently has. -/
def processPayment (payments : List Payment) (pid : Nat) (action : String)
    (recipient : Option Nat) (distributionMethod : Option String)
    (splitAmong : Option (List SplitEntry)) (adminId now : Nat) :
    List Payment × ProcessResult :=
  match payments.find? (fun p => p.id == pid) with
  | none => (payments, ProcessResult.notFound)
  | some payment =>
      if action == "approve" then
        let p1 := { payment with
          status := PaymentStatus.approved
          processedBy := some adminId
          processedAt := some now }
        let p2 :=
          if distributionMethod == some "full" && recipient.isSome then
            { p1 with recipient := recipient, distributionMethod := DistributionMethod.full }
          else if distributionMethod == some "split" && splitAmong.isSome then
            { p1 with distributionMethod := DistributionMethod.split,
                      splitAmong := splitAmong.getD [] }
          else p1
        (savePayment payments p2, ProcessResult.approvedOk)
      else if action == "reject" then
        let p1 := { payment with
          status := PaymentStatus.cancelled
          processedBy := some adminId
          processedAt := some now }
        (savePayment payments p1, ProcessResult.rejectedOk)
      else (payments, ProcessResult.noResponse)

/-- The string stored for each `urgencyLevel` enum value
(`src/models/Request.js` line 21). -/
def urgencyValue : Urgency → String
  | Urgency.low => "low"
  | Urgency.medium => "medium"
  | Urgency.high => "high"
  | Urgency.critical => "critical"

/-- BSON string comparison used by MongoDB sort: byte-wise (for ASCII,
character-wise) lexicographic order. -/
def bsonStrLt : List Char → List Char → Bool
  | [], [] => false
  | [], _ :: _ => true
  | _ :: _, [] => false
  | a :: as, b :: bs => if a < b then true else if b < a then false else bsonStrLt as bs

/-- The sort key `{ urgencyLevel: -1, createdAt: 1 }` used by
`GET /donor/requests` with `sort=urgency` and by `GET /donor/dashboard`
(`src/routes/admin.js` lines 346 and 519): request `a` precedes request `b`
when `a`'s urgency string is BSON-greater, or the urgency strings are equal
and `a.createdAt ≤ b.createdAt`. -/
def requestUrgencySortLe (a b : Request) : Bool :=
  bsonStrLt (urgencyValue b.urgencyLevel).data (urgencyValue a.urgencyLevel).data
  || (urgencyValue a.urgencyLevel == urgencyValue b.urgencyLevel
      && decide (a.createdAt ≤ b.createdAt))

/-- `requestUrgencySortLe` as a decidable relation, for Mathlib's sort. -/
def requestUrgOrder (a b : Request) : Prop :=
  requestUrgencySortLe a b = true

instance : DecidableRel requestUrgOrder := fun a b => by
  unfold requestUrgOrder
  infer_instance

instance : IsTotal Request requestUrgOrder := by
  constructor
  intro a b
  have tri : ∀ x y : Urgency,
      bsonStrLt (urgencyValue x).data (urgencyValue y).data = true
      ∨ urgencyValue x = urgencyValue y
      ∨ bsonStrLt (urgencyValue y).data (urgencyValue x).data = true := by decide
  unfold requestUrgOrder requestUrgencySortLe
  simp only [Bool.or_eq_true, Bool.and_eq_true, beq_iff_eq, decide_eq_true_eq]
  rcases tri a.urgencyLevel b.urgencyLevel with h | h | h
  · exact Or.inr (Or.inl h)
  · rcases Nat.le_total a.createdAt b.createdAt with hle | hle
    · exact Or.inl (Or.inr ⟨h, hle⟩)
    · exact Or.inr (Or.inr ⟨h.symm, hle⟩)
  · exact Or.inl (Or.inl h)

instance : IsTrans Request requestUrgOrder := by
  constructor
  intro a b c hab hbc
  have htr : ∀ x y z : Urgency,
      bsonStrLt (urgencyValue x).data (urgencyValue y).data = true →
      bsonStrLt (urgencyValue y).data (urgencyValue z).data = true →
      bsonStrLt (urgencyValue x).data (urgencyValue z).data = true := by decide
  have hinj : ∀ x y : Urgency, urgencyValue x = urgencyValue y → x = y := by decide
  unfold requestUrgOrder requestUrgencySortLe at hab hbc ⊢
  simp only [Bool.or_eq_true, Bool.and_eq_true, beq_iff_eq, decide_eq_true_eq]
    at hab hbc ⊢
  rcases hab with h1 | ⟨e1, l1⟩
  · rcases hbc with h2 | ⟨e2, l2⟩
    · exact Or.inl (htr _ _ _ h2 h1)
    · have hbcEq : b.urgencyLevel = c.urgencyLevel := hinj _ _ e2
      rw [hbcEq] at h1
      exact Or.inl h1
  · rcases hbc with h2 | ⟨e2, l2⟩
    · have habEq : a.urgencyLevel = b.urgencyLevel := hinj _ _ e1
      rw [← habEq] at h2
      exact Or.inl h2
    · exact Or.inr ⟨e1.trans e2, Nat.le_trans l1 l2⟩

/-- `Request.find({status:'pending'}).sort({urgencyLevel:-1, createdAt:1})`:
the pending requests ordered by the composite key.  MongoDB's sort is
modelled as a stable sort by that key. -/
def sortPendingByUrgency (l : List Request) : List Request :=
  (l.filter (fun r => r.status == RequestStatus.pending)).insertionSort requestUrgOrder

/-- The body of the unique-id `while` loop of `userSchema.pre('save')`
(`src/models/User.js` lines 71-80), with the remaining number of allowed
attempts (`10 - attempts`) as the recursion fuel.  `cand i` is the candidate
drawn on attempt `i`; `existing` says whether a user already holds an id. -/
def generateIdGo (existing : Nat → Bool) (cand : Nat → Nat) :
    Nat → Nat → Except String Nat
  | _, 0 => Except.error "Unable to generate unique ID. Please try again."
  | attempts, remaining + 1 =>
      let id := cand attempts
      if existing id then generateIdGo existing cand (attempts + 1) remaining
      else Except.ok id

/-- The unique-4-digit-id generator of `userSchema.pre('save')`
(`src/models/User.js` lines 68-82): up to 10 attempts, each drawing
`Math.floor(1000 + Math.random() * 9000)`.  The stream of values
`Math.floor(Math.random() * 9000)` (each `< 9000`) is the parameter `u`, so
attempt `i` draws candidate `1000 + u i`. -/
def generateUniqueId (existing : Nat → Bool) (u : Nat → Nat) : Except String Nat :=
  generateIdGo existing (fun i => 1000 + u i) 0 10

/-- The donor-status update in `GET /donor/dashboard` (`src/routes/admin.js`
lines 358-370): `stats.totalDonations` is the number of the donor's donation
documents and `stats.totalPayments` the sum of the donor's payment amounts;
when either threshold is met the handler sets `isRegularDonor` and saves the
donor. -/
def donorDashboardUpdate (donor : DonorInfo) (myDonations : List Donation)
    (myPayments : List Payment) : DonorInfo :=
  let totalDonations : Nat := myDonations.length
  let totalPayments : Int := (myPayments.map (fun p => p.amount)).sum
  if 5 ≤ totalDonations ∨ 1000 ≤ totalPayments then
    { donor with isRegularDonor := true }
  else donor

/-- The donor-record update of `POST /donor/donate` (`src/routes/admin.js`
line 431): `req.user.donorInfo.totalDonations += 1`. -/
def recordDonationCreated (donor : DonorInfo) : DonorInfo :=
  { donor with totalDonations := donor.totalDonations + 1 }

/-- The operations in the repository that write a donor's `donorInfo`
sub-document: the dashboard update and the donate counter increment.  (User
registration creates a fresh record and is not a write to an existing one.) -/
inductive DonorOp
  | dashboard (myDonations : List Donation) (myPayments : List Payment)
  | donate

/-- Apply one donor-record operation. -/
def applyDonorOp (donor : DonorInfo) : DonorOp → DonorInfo
  | DonorOp.dashboard ds ps => donorDashboardUpdate donor ds ps
  | DonorOp.donate => recordDonationCreated donor

/-- Apply a sequence of donor-record operations. -/
def applyDonorOps (donor : DonorInfo) (ops : List DonorOp) : DonorInfo :=
  ops.foldl applyDonorOp donor

/-! ### Concrete records used to evaluate the handlers at failing inputs -/

/-- An available laptop donation raced over by two concurrent claimants. -/
def raceDonation : Donation :=
  { id := 1, donor := 30, type := Kind.laptop, description := "a laptop"
    value := 100, status := DonationStatus.available, recipient := none
    donatedAt := none, expiresAt := 1000, createdAt := 0 }

/-- Store holding only `raceDonation`. -/
def raceSt : St := { donations := [raceDonation], requests := [] }

/-- An already-approved payment (processed by admin 4 at time 50). -/
def approvedPayment : Payment :=
  { id := 1, donor := 2, recipient := some 3, amount := 100
    status := PaymentStatus.approved, processedBy := some 4, processedAt := some 50
    distributionMethod := DistributionMethod.full, splitAmong := [], createdAt := 1 }

/-- A pending payment of amount 100 awaiting processing. -/
def pendingPayment : Payment :=
  { id := 1, donor := 2, recipient := none, amount := 100
    status := PaymentStatus.pending, processedBy := none, processedAt := none
    distributionMethod := DistributionMethod.full, splitAmong := [], createdAt := 1 }

/-- A split list whose amounts sum to 110, not 100. -/
def badSplit : List SplitEntry := [{ student := 11, amount := 60 }, { student := 12, amount := 50 }]

/-- A pending request with urgency `critical` created at t = 10. -/
def critReq10 : Request :=
  { id := 1, student := 21, type := Kind.books, description := "urgent books"
    urgencyLevel := Urgency.critical, amount := 0, status := RequestStatus.pending
    fulfilledBy := none, fulfilledAt := none, createdAt := 10 }

/-- A pending request with urgency `high` created at t = 5. -/
def highReq5 : Request :=
  { id := 2, student := 22, type := Kind.fees, description := "school fees"
    urgencyLevel := Urgency.high, amount := 0, status := RequestStatus.pending
    fulfilledBy := none, fulfilledAt := none, createdAt := 5 }

/-- An available donation whose `expiresAt` (t = 10) has long passed. -/
def staleDonation : Donation :=
  { id := 1, donor := 30, type := Kind.books, description := "old books"
    value := 10, status := DonationStatus.available, recipient := none
    donatedAt := none, expiresAt := 10, createdAt := 0 }

/-- Store holding only `staleDonation`. -/
def staleSt : St := { donations := [staleDonation], requests := [] }

/-- An available donation claimed first by student 100, then by 200. -/
def wit6Donation : Donation :=
  { id := 1, donor := 30, type := Kind.laptop, description := "a laptop"
    value := 100, status := DonationStatus.available, recipient := none
    donatedAt := none, expiresAt := 1000, createdAt := 0 }

/-- Store holding only `wit6Donation`. -/
def wit6St : St := { donations := [wit6Donation], requests := [] }

/-- An available books donation whose claim fulfils a pending request. -/
def wit7Donation : Donation :=
  { id := 1, donor := 30, type := Kind.books, description := "textbooks"
    value := 20, status := DonationStatus.available, recipient := none
    donatedAt := none, expiresAt := 1000, createdAt := 0 }

/-- A pending books request by student 100, matched by `wit7Donation`. -/
def wit7Request : Request :=
  { id := 5, student := 100, type := Kind.books, description := "need books"
    urgencyLevel := Urgency.medium, amount := 0, status := RequestStatus.pending
    fulfilledBy := none, fulfilledAt := none, createdAt := 2 }

/-- Store holding `wit7Donation` and `wit7Request`. -/
def wit7St : St := { donations := [wit7Donation], requests := [wit7Request] }

/-- A pending request with urgency `high` created at t = 7. -/
def stableLateReq : Request :=
  { id := 1, student := 21, type := Kind.books, description := "books later"
    urgencyLevel := Urgency.high, amount := 0, status := RequestStatus.pending
    fulfilledBy := none, fulfilledAt := none, createdAt := 7 }

/-- A pending request with urgency `high` created at t = 3. -/
def stableEarlyReq : Request :=
  { id := 2, student := 22, type := Kind.fees, description := "fees earlier"
    urgencyLevel := Urgency.high, amount := 0, status := RequestStatus.pending
    fulfilledBy := none, fulfilledAt := none, createdAt := 3 }

/-- A single pending payment of amount 1000, enough for regular-donor status. -/
def bigPayment : Payment :=
  { id := 1, donor := 2, recipient := none, amount := 1000
    status := PaymentStatus.pending, processedBy := none, processedAt := none
    distributionMethod := DistributionMethod.full, splitAmong := [], createdAt := 0 }

/-! ### Helper lemmas -/

/-- A by-id replacement that hits no stored id leaves the collection
unchanged. -/
theorem saveById_of_no_match {α : Type} (idOf : α → Nat) (d : α) :
    ∀ l : List α, (∀ y ∈ l, idOf y ≠ idOf d) → saveById idOf l d = l := by
  intro l
  induction l with
  | nil => intro _; rfl
  | cons x xs ih =>
      intro h
      have hx : (idOf x == idOf d) = false := by
        simp only [beq_eq_false_iff_ne, ne_eq]
        exact h x (List.mem_cons_self x xs)
      simp only [saveById, List.map_cons, hx, Bool.false_eq_true, if_false]
      have := ih fun y hy => h y (List.mem_cons_of_mem x hy)
      simpa [saveById] using this

/-- After a by-id replacement, looking the id up returns the new version. -/
theorem find?_saveById {α : Type} (idOf : α → Nat) :
    ∀ (l : List α) (d d' : α) (i : Nat),
      l.find? (fun x => idOf x == i) = some d → idOf d' = idOf d →
      (saveById idOf l d').find? (fun x => idOf x == i) = some d' := by
  intro l
  induction l with
  | nil => intro d d' i h _; simp at h
  | cons x xs ih =>
      intro d d' i h hid
      by_cases hpx : (idOf x == i) = true
      · simp only [List.find?_cons, hpx] at h
        have hxd : x = d := by injection h
        subst hxd
        have hcond : (idOf x == idOf d') = true := by
          simp only [beq_iff_eq]; exact hid.symm
        have hd'i : (idOf d' == i) = true := by
          simp only [beq_iff_eq] at hpx ⊢
          rw [hid, hpx]
        simp only [saveById, List.map_cons, hcond, if_true, List.find?_cons, hd'i]
      · have hpx' : (idOf x == i) = false := by simpa using hpx
        simp only [List.find?_cons, hpx'] at h
        have hdi : idOf d = i := by
          have := List.find?_some h
          simpa using this
        have hcond : (idOf x == idOf d') = false := by
          simp only [beq_eq_false_iff_ne, ne_eq]
          intro hEq
          rw [hid, hdi] at hEq
          exact absurd hEq (by simpa using hpx')
        simp only [saveById, List.map_cons, hcond, Bool.false_eq_true, if_false,
          List.find?_cons, hpx']
        have := ih d d' i h hid
        simpa [saveById] using this

/-- A by-id replacement of a stored record `r` (ids distinct) by a new
version that flips the counted predicate from false to true raises the
count by exactly one. -/
theorem countP_saveById {α : Type} (idOf : α → Nat) (p : α → Bool) :
    ∀ (l : List α) (r r' : α), r ∈ l → (l.map idOf).Nodup → idOf r' = idOf r →
      p r = false → p r' = true →
      (saveById idOf l r').countP p = l.countP p + 1 := by
  intro l
  induction l with
  | nil => intro r r' hmem; exact absurd hmem (List.not_mem_nil r)
  | cons x xs ih =>
      intro r r' hmem hnd hid hr hr'
      rw [List.map_cons, List.nodup_cons] at hnd
      obtain ⟨hx, hnds⟩ := hnd
      rcases List.mem_cons.mp hmem with hxr | hmem'
      · subst hxr
        have hcond : (idOf r == idOf r') = true := by
          simp only [beq_iff_eq]; exact hid.symm
        have hxs : saveById idOf xs r' = xs := by
          apply saveById_of_no_match
          intro y hy hEq
          rw [hid] at hEq
          exact hx (hEq ▸ List.mem_map_of_mem idOf hy)
        have hxs' : (xs.map fun y => if idOf y == idOf r' then r' else y) = xs := by
          simpa [saveById] using hxs
        simp only [saveById, List.map_cons, hcond, if_true]
        rw [hxs', List.countP_cons, List.countP_cons, hr, hr']
        simp
      · have hxneq : (idOf x == idOf r') = false := by
          simp only [beq_eq_false_iff_ne, ne_eq]
          intro hEq
          rw [hid] at hEq
          exact hx (hEq ▸ List.mem_map_of_mem idOf hmem')
        simp only [saveById, List.map_cons, hxneq, Bool.false_eq_true, if_false]
        rw [List.countP_cons, List.countP_cons]
        have := ih r r' hmem' hnds hid hr hr'
        simp only [saveById] at this
        rw [this]
        omega

/-- `fulfillMatchingRequest` writes only the request collection. -/
theorem fulfillMatchingRequest_donations (st : St) (d : Donation) (c n i : Nat) :
    (fulfillMatchingRequest st d c n i).donations = st.donations := by
  unfold fulfillMatchingRequest
  split <;> rfl

/-- The donations after the write phase of a claim: the loaded document is
saved back with status `reserved`, the claimant as recipient and the claim
time as `donatedAt`. -/
theorem claimWrite_donations (st : St) (d : Donation) (c n i : Nat) :
    (claimWrite st d c n i).donations
      = saveDonation st.donations
          { d with status := DonationStatus.reserved, recipient := some c,
                   donatedAt := some n } := by
  unfold claimWrite
  rw [fulfillMatchingRequest_donations]

/-- The requests after the write phase of a claim do not depend on the
donation save that precedes them. -/
theorem claimWrite_requests (st : St) (d : Donation) (c n i : Nat) :
    (claimWrite st d c n i).requests = (fulfillMatchingRequest st d c n i).requests := by
  unfold claimWrite fulfillMatchingRequest
  cases h : st.requests.find? (pendingMatch c d.type) <;> simp [h]

/-- A claim on a donation that loads with status `available` takes the
success path: it returns the success redirect and the write-phase state. -/
theorem claimDonation_eq (st : St) (d : Donation) (did c n i : Nat)
    (hf : st.donations.find? (fun x => x.id == did) = some d)
    (hav : d.status = DonationStatus.available) :
    claimDonation st did c n i = (claimWrite st d c n i, ClaimResult.success) := by
  unfold claimDonation claimStep1
  rw [hf]
  simp [hav]

/-- A claim on a donation that loads with a status other than `available`
fails with the unavailability redirect and leaves the store unchanged. -/
theorem claimDonation_unavailable (st : St) (d : Donation) (did c n i : Nat)
    (hf : st.donations.find? (fun x => x.id == did) = some d)
    (hne : d.status ≠ DonationStatus.available) :
    claimDonation st did c n i = (st, ClaimResult.unavailable) := by
  unfold claimDonation claimStep1
  rw [hf]
  simp [hne]

/-! ### Claim theorems -/

/-- Claim C1 (refuted): the claim handler is a non-atomic read-check-write
(`findById`, a status check, then `save`), so under two concurrent claim
attempts on the same available donation, interleaved as read-A, read-B,
write-A, write-B, BOTH callers pass the availability check and both run the
success path to completion: the final state carries one fulfilled request
per claimant and caller B has overwritten caller A as the recipient.  The
claim that exactly one caller succeeds and the other receives the
`ResourceUnavailable` failure is false of this code. -/
theorem concurrent_claims_both_succeed :
    claimStep1 raceSt 1 = some raceDonation
    ∧ claimDonation raceSt 1 100 10 71
        = (claimWrite raceSt raceDonation 100 10 71, ClaimResult.success)
    ∧ ((claimWrite (claimWrite raceSt raceDonation 100 10 71)
          raceDonation 200 11 72).donations.find? (fun x => x.id == 1)).map
        (fun d => (d.status, d.recipient))
        = some (DonationStatus.reserved, some 200)
    ∧ ((claimWrite (claimWrite raceSt raceDonation 100 10 71)
          raceDonation 200 11 72).requests.map (fun r => (r.student, r.status)))
        = [(100, RequestStatus.fulfilled), (200, RequestStatus.fulfilled)] := by
  decide

/-- Claim C2 (refuted for payments): `POST /admin/process-payment` applies
the `approve` action to a payment whose status is already `approved` without
any `pending` check: it reports success, silently re-applies the transition
and overwrites `processedBy`/`processedAt` (and the recipient), instead of
failing with `ConflictError` and leaving the record unchanged. -/
theorem process_payment_replay_not_rejected :
    approvedPayment.status = PaymentStatus.approved
    ∧ processPayment [approvedPayment] 1 "approve" (some 9) (some "full") none 7 99
        = ([{ approvedPayment with
                recipient := some 9
                processedBy := some 7
                processedAt := some 99 }], ProcessResult.approvedOk)
    ∧ (processPayment [approvedPayment] 1 "approve" (some 9) (some "full") none 7 99).1
        ≠ [approvedPayment] := by
  decide

/-- Claim C3 (refuted): approving a payment of amount 100 with a `split`
list whose amounts sum to 110 succeeds and stores the mismatched list; the
handler performs no share-sum validation at all, so no `ValidationError` is
raised. -/
theorem split_sum_mismatch_accepted :
    (badSplit.map (fun s => s.amount)).sum ≠ pendingPayment.amount
    ∧ processPayment [pendingPayment] 1 "approve" none (some "split") (some badSplit) 7 99
        = ([{ pendingPayment with
                status := PaymentStatus.approved
                processedBy := some 7
                processedAt := some 99
                distributionMethod := DistributionMethod.split
                splitAmong := badSplit }], ProcessResult.approvedOk) := by
  decide

/-- Claim C4 (refuted): the sort key `{urgencyLevel: -1, createdAt: 1}`
orders by the urgency enum's string value descending, and lexicographically
`"high" > "critical"`, so the `high` request created at t = 5 sorts before
the `critical` request created at t = 10 — not the semantic ranking
critical > high the claim states. -/
theorem urgency_sort_uses_string_order :
    critReq10.urgencyLevel = Urgency.critical ∧ critReq10.createdAt = 10
    ∧ highReq5.urgencyLevel = Urgency.high ∧ highReq5.createdAt = 5
    ∧ bsonStrLt (urgencyValue Urgency.critical).data (urgencyValue Urgency.high).data = true
    ∧ sortPendingByUrgency [critReq10, highReq5] = [highReq5, critReq10] := by
  decide

/-- Claim C5 (refuted): neither the claim handler nor anything else in the
repository consults `expiresAt`; a donation whose expiry (t = 10) has long
passed but whose stored status is still `available` is claimed successfully
at t = 100 and becomes `reserved`. -/
theorem claim_succeeds_on_expired_donation :
    staleDonation.expiresAt < 100
    ∧ staleDonation.status = DonationStatus.available
    ∧ (claimDonation staleSt 1 55 100 9).2 = ClaimResult.success
    ∧ ((claimDonation staleSt 1 55 100 9).1.donations.find? (fun x => x.id == 1)).map
        (fun d => (d.status, d.recipient))
        = some (DonationStatus.reserved, some 55) := by
  decide

/-- Claim C6 (confirmed): claiming an available donation `d` by student `a`
succeeds with postcondition status `reserved` and recipient `a`, and a later
claim of the same donation by another student `b` returns the
`Donation is no longer available` failure and leaves the store — status and
recipient included — completely unchanged. -/
theorem claim_then_reclaim_spec (st : St) (d : Donation)
    (did a b now now2 newReqId newReqId2 : Nat)
    (hf : st.donations.find? (fun x => x.id == did) = some d)
    (hav : d.status = DonationStatus.available)
    (_hab : a ≠ b) :
    (claimDonation st did a now newReqId).2 = ClaimResult.success
    ∧ ((claimDonation st did a now newReqId).1.donations.find? (fun x => x.id == did)
        = some { d with
            status := DonationStatus.reserved
            recipient := some a
            donatedAt := some now })
    ∧ claimDonation (claimDonation st did a now newReqId).1 did b now2 newReqId2
        = ((claimDonation st did a now newReqId).1, ClaimResult.unavailable) := by
  have he := claimDonation_eq st d did a now newReqId hf hav
  have hfind : (claimDonation st did a now newReqId).1.donations.find?
      (fun x => x.id == did)
      = some { d with
          status := DonationStatus.reserved
          recipient := some a
          donatedAt := some now } := by
    rw [he]
    rw [claimWrite_donations]
    exact find?_saveById Donation.id st.donations d _ did hf rfl
  refine ⟨by rw [he], hfind, ?_⟩
  exact claimDonation_unavailable _ _ did b now2 newReqId2 hfind (by simp)

/-- Witness for C6 at a concrete store: student 100 claims donation 1 at
t = 10, then student 200 tries the same donation at t = 11 and fails. -/
theorem claim_then_reclaim_spec_witness :
    (claimDonation wit6St 1 100 10 71).2 = ClaimResult.success
    ∧ ((claimDonation wit6St 1 100 10 71).1.donations.find? (fun x => x.id == 1)
        = some { wit6Donation with
            status := DonationStatus.reserved
            recipient := some 100
            donatedAt := some 10 })
    ∧ claimDonation (claimDonation wit6St 1 100 10 71).1 1 200 11 72
        = ((claimDonation wit6St 1 100 10 71).1, ClaimResult.unavailable) :=
  claim_then_reclaim_spec wit6St wit6Donation 1 100 200 10 11 71 72
    (by decide) (by decide) (by decide)

/-- Claim C7 (confirmed): on a successful claim, if the claimant has an
existing pending request of the donation's kind, that request becomes
`fulfilled` with the donation's donor as fulfiller; otherwise a new request
is inserted already `fulfilled` with the donor as fulfiller; either way the
number of fulfilled requests of the claimant grows by exactly one, and a
fulfilled request of the claimant crediting the donor exists afterwards. -/
theorem claim_fulfills_one_request (st : St) (d : Donation)
    (did claimant now newReqId : Nat)
    (hf : st.donations.find? (fun x => x.id == did) = some d)
    (hav : d.status = DonationStatus.available)
    (hnd : (st.requests.map Request.id).Nodup) :
    (claimDonation st did claimant now newReqId).2 = ClaimResult.success
    ∧ (∀ r, st.requests.find? (pendingMatch claimant d.type) = some r →
        (claimDonation st did claimant now newReqId).1.requests
          = saveRequest st.requests (fulfilledVersion r d.donor now))
    ∧ (st.requests.find? (pendingMatch claimant d.type) = none →
        (claimDonation st did claimant now newReqId).1.requests
          = st.requests ++ [claimedRequest d claimant now newReqId])
    ∧ (claimDonation st did claimant now newReqId).1.requests.countP
          (fun q => q.student == claimant && q.status == RequestStatus.fulfilled)
        = st.requests.countP
            (fun q => q.student == claimant && q.status == RequestStatus.fulfilled) + 1
    ∧ (∃ q ∈ (claimDonation st did claimant now newReqId).1.requests,
        q.student = claimant ∧ q.status = RequestStatus.fulfilled
        ∧ q.fulfilledBy = some d.donor) := by
  have he := claimDonation_eq st d did claimant now newReqId hf hav
  have hreq : (claimDonation st did claimant now newReqId).1.requests
      = (fulfillMatchingRequest st d claimant now newReqId).requests := by
    rw [he]; exact claimWrite_requests st d claimant now newReqId
  cases hm : st.requests.find? (pendingMatch claimant d.type) with
  | some r =>
      have hpm : pendingMatch claimant d.type r = true := List.find?_some hm
      have hstu : r.student = claimant := by
        simp only [pendingMatch, Bool.and_eq_true, beq_iff_eq] at hpm
        exact hpm.1.1
      have hpend : r.status = RequestStatus.pending := by
        simp only [pendingMatch, Bool.and_eq_true, beq_iff_eq] at hpm
        exact hpm.2
      have hsave : (fulfillMatchingRequest st d claimant now newReqId).requests
          = saveRequest st.requests (fulfilledVersion r d.donor now) := by
        simp only [fulfillMatchingRequest, hm]
      have hcount : (claimDonation st did claimant now newReqId).1.requests.countP
            (fun q => q.student == claimant && q.status == RequestStatus.fulfilled)
          = st.requests.countP
              (fun q => q.student == claimant && q.status == RequestStatus.fulfilled) + 1 := by
        rw [hreq, hsave]
        unfold saveRequest
        apply countP_saveById Request.id _ st.requests r
        · exact List.mem_of_find?_eq_some hm
        · exact hnd
        · rfl
        · simp [hstu, hpend]
        · simp [fulfilledVersion, hstu]
      refine ⟨by rw [he], ?_, ?_, hcount, ?_⟩
      · intro r0 hr0
        have hrr : r = r0 := Option.some.inj hr0
        subst hrr
        rw [hreq, hsave]
      · intro hnone
        exact absurd hnone (by simp)
      · refine ⟨fulfilledVersion r d.donor now, ?_, by simp [fulfilledVersion, hstu],
          rfl, rfl⟩
        rw [hreq, hsave]
        have himg : (fun x => if Request.id x == Request.id (fulfilledVersion r d.donor now)
              then fulfilledVersion r d.donor now else x) r
            = fulfilledVersion r d.donor now := by
          simp [fulfilledVersion]
        have hmm := List.mem_map_of_mem
          (fun x => if Request.id x == Request.id (fulfilledVersion r d.donor now)
            then fulfilledVersion r d.donor now else x)
          (List.mem_of_find?_eq_some hm)
        rw [himg] at hmm
        exact hmm
  | none =>
      have happ : (fulfillMatchingRequest st d claimant now newReqId).requests
          = st.requests ++ [claimedRequest d claimant now newReqId] := by
        simp only [fulfillMatchingRequest, hm]
      have hcount : (claimDonation st did claimant now newReqId).1.requests.countP
            (fun q => q.student == claimant && q.status == RequestStatus.fulfilled)
          = st.requests.countP
              (fun q => q.student == claimant && q.status == RequestStatus.fulfilled) + 1 := by
        rw [hreq, happ, List.countP_append]
        simp [claimedRequest]
      refine ⟨by rw [he], ?_, ?_, hcount, ?_⟩
      · intro r0 hr0
        exact absurd hr0 (by simp)
      · intro _
        rw [hreq, happ]
      · refine ⟨claimedRequest d claimant now newReqId, ?_, rfl, rfl, rfl⟩
        rw [hreq, happ]
        simp

/-- Witness for C7 at a concrete store: student 100 claims books donation 1
and the pending books request 5 becomes fulfilled — the claimant's fulfilled
request count rises from 0 to 1. -/
theorem claim_fulfills_one_request_witness :
    (claimDonation wit7St 1 100 10 71).1.requests.countP
        (fun q => q.student == 100 && q.status == RequestStatus.fulfilled)
      = wit7St.requests.countP
          (fun q => q.student == 100 && q.status == RequestStatus.fulfilled) + 1 :=
  (claim_fulfills_one_request wit7St wit7Donation 1 100 10 71
    (by decide) (by decide) (by decide)).2.2.2.1

/-- Claim C8 (confirmed): for every stored list of requests, the pending
view sorted by urgency-then-creation places, of any two entries with equal
urgency, the earlier-created one first; re-sorting the sorted output
returns it unchanged; and the output is a permutation of the pending
records — no record is mutated, duplicated or dropped. -/
theorem pending_sort_stable_deterministic :
    (∀ (l : List Request) (i j : Fin (sortPendingByUrgency l).length),
        i < j →
        ((sortPendingByUrgency l).get i).urgencyLevel
          = ((sortPendingByUrgency l).get j).urgencyLevel →
        ((sortPendingByUrgency l).get i).createdAt
          ≤ ((sortPendingByUrgency l).get j).createdAt)
    ∧ (∀ l : List Request,
        sortPendingByUrgency (sortPendingByUrgency l) = sortPendingByUrgency l)
    ∧ (∀ l : List Request,
        (sortPendingByUrgency l).Perm
          (l.filter (fun r => r.status == RequestStatus.pending))) := by
  have hsorted : ∀ l : List Request,
      List.Sorted requestUrgOrder (sortPendingByUrgency l) := by
    intro l
    unfold sortPendingByUrgency
    exact List.sorted_insertionSort requestUrgOrder _
  have hirr : ∀ x : Urgency,
      bsonStrLt (urgencyValue x).data (urgencyValue x).data = false := by decide
  refine ⟨?_, ?_, ?_⟩
  · intro l i j hij hurg
    have hp := List.pairwise_iff_get.mp (hsorted l) i j hij
    unfold requestUrgOrder requestUrgencySortLe at hp
    simp only [Bool.or_eq_true, Bool.and_eq_true, beq_iff_eq, decide_eq_true_eq] at hp
    rcases hp with h | ⟨_, hle⟩
    · rw [hurg, hirr] at h
      exact absurd h (by simp)
    · exact hle
  · intro l
    have hall : ∀ x ∈ sortPendingByUrgency l,
        (x.status == RequestStatus.pending) = true := by
      intro x hx
      unfold sortPendingByUrgency at hx
      have hx' : x ∈ l.filter (fun r => r.status == RequestStatus.pending) :=
        (List.Perm.mem_iff (List.perm_insertionSort _ _)).mp hx
      exact (List.mem_filter.mp hx').2
    have hfe : (sortPendingByUrgency l).filter (fun r => r.status == RequestStatus.pending)
        = sortPendingByUrgency l := List.filter_eq_self.mpr hall
    show ((sortPendingByUrgency l).filter
        (fun r => r.status == RequestStatus.pending)).insertionSort requestUrgOrder
      = sortPendingByUrgency l
    rw [hfe]
    exact List.Sorted.insertionSort_eq (hsorted l)
  · intro l
    unfold sortPendingByUrgency
    exact List.perm_insertionSort _ _

/-- Witness for C8 at a concrete list: two pending `high` requests created
at t = 7 and t = 3, inserted later-first, sort earlier-first; re-sorting is
the identity; the output is a permutation of the pending input. -/
theorem pending_sort_stable_deterministic_witness :
    ((sortPendingByUrgency [stableLateReq, stableEarlyReq]).get ⟨0, by decide⟩).createdAt
      ≤ ((sortPendingByUrgency [stableLateReq, stableEarlyReq]).get ⟨1, by decide⟩).createdAt
    ∧ sortPendingByUrgency (sortPendingByUrgency [stableLateReq, stableEarlyReq])
        = sortPendingByUrgency [stableLateReq, stableEarlyReq]
    ∧ (sortPendingByUrgency [stableLateReq, stableEarlyReq]).Perm
        ([stableLateReq, stableEarlyReq].filter
          (fun r => r.status == RequestStatus.pending)) :=
  ⟨pending_sort_stable_deterministic.1 [stableLateReq, stableEarlyReq]
      ⟨0, by decide⟩ ⟨1, by decide⟩ (by decide) (by decide),
   pending_sort_stable_deterministic.2.1 [stableLateReq, stableEarlyReq],
   pending_sort_stable_deterministic.2.2 [stableLateReq, stableEarlyReq]⟩

/-- If the loop returns an id, that id was drawn on some attempt within the
allowed window and was free. -/
theorem generateIdGo_ok_spec (existing : Nat → Bool) (cand : Nat → Nat) :
    ∀ (remaining attempts id : Nat),
      generateIdGo existing cand attempts remaining = Except.ok id →
      ∃ i, attempts ≤ i ∧ i < attempts + remaining ∧ id = cand i
        ∧ existing (cand i) = false := by
  intro remaining
  induction remaining with
  | zero =>
      intro attempts id h
      simp [generateIdGo] at h
  | succ n ih =>
      intro attempts id h
      simp only [generateIdGo] at h
      by_cases hx : existing (cand attempts) = true
      · rw [if_pos hx] at h
        obtain ⟨i, h1, h2, h3, h4⟩ := ih (attempts + 1) id h
        exact ⟨i, by omega, by omega, h3, h4⟩
      · rw [if_neg hx] at h
        have hid : cand attempts = id := by injection h
        exact ⟨attempts, Nat.le_refl _, by omega, hid.symm, by simpa using hx⟩

/-- The loop returns the candidate of the first free attempt in the
window. -/
theorem generateIdGo_first_spec (existing : Nat → Bool) (cand : Nat → Nat) :
    ∀ (remaining attempts k : Nat), attempts ≤ k → k < attempts + remaining →
      existing (cand k) = false →
      (∀ j, attempts ≤ j → j < k → existing (cand j) = true) →
      generateIdGo existing cand attempts remaining = Except.ok (cand k) := by
  intro remaining
  induction remaining with
  | zero =>
      intro attempts k h1 h2 _ _
      omega
  | succ n ih =>
      intro attempts k h1 h2 h3 h4
      simp only [generateIdGo]
      by_cases hx : existing (cand attempts) = true
      · rw [if_pos hx]
        have hak : attempts ≠ k := by
          intro hEq
          rw [hEq, h3] at hx
          exact Bool.noConfusion hx
        exact ih (attempts + 1) k (by omega) (by omega) h3
          (fun j hj1 hj2 => h4 j (by omega) hj2)
      · rw [if_neg hx]
        have hk : k = attempts := by
          by_contra hne
          have hlt : attempts < k := by omega
          exact hx (h4 attempts (Nat.le_refl _) hlt)
        rw [hk]

/-- If every attempt in the window collides, the loop fails with the
generator's error. -/
theorem generateIdGo_exhaust_spec (existing : Nat → Bool) (cand : Nat → Nat) :
    ∀ (remaining attempts : Nat),
      (∀ j, attempts ≤ j → j < attempts + remaining → existing (cand j) = true) →
      generateIdGo existing cand attempts remaining
        = Except.error "Unable to generate unique ID. Please try again." := by
  intro remaining
  induction remaining with
  | zero => intro attempts _; rfl
  | succ n ih =>
      intro attempts h
      simp only [generateIdGo]
      rw [if_pos (h attempts (Nat.le_refl _) (by omega))]
      exact ih (attempts + 1) (fun j hj1 hj2 => h j (by omega) (by omega))

/-- Claim C9 (confirmed): for any set of already-taken ids and any stream of
random draws, the generator (a) only ever returns an id in 1000-9999 that no
existing user holds, found within the 10-attempt window, (b) returns the
candidate of the first non-colliding attempt `k < 10`, stopping there, and
(c) fails with `Unable to generate unique ID. Please try again.` when all
10 attempts collide, assigning nothing. -/
theorem unique_id_generator_spec (existing : Nat → Bool) (u : Nat → Nat)
    (hu : ∀ i, u i < 9000) :
    (∀ id, generateUniqueId existing u = Except.ok id →
        1000 ≤ id ∧ id ≤ 9999 ∧ existing id = false)
    ∧ (∀ k, k < 10 → existing (1000 + u k) = false →
        (∀ j, j < k → existing (1000 + u j) = true) →
        generateUniqueId existing u = Except.ok (1000 + u k))
    ∧ ((∀ i, i < 10 → existing (1000 + u i) = true) →
        generateUniqueId existing u
          = Except.error "Unable to generate unique ID. Please try again.") := by
  refine ⟨?_, ?_, ?_⟩
  · intro id h
    unfold generateUniqueId at h
    obtain ⟨i, _, _, h3, h4⟩ :=
      generateIdGo_ok_spec existing (fun i => 1000 + u i) 10 0 id h
    subst h3
    have := hu i
    exact ⟨by omega, by omega, h4⟩
  · intro k hk h3 h4
    unfold generateUniqueId
    exact generateIdGo_first_spec existing (fun i => 1000 + u i) 10 0 k
      (by omega) (by omega) h3 (fun j _ hj2 => h4 j hj2)
  · intro h
    unfold generateUniqueId
    exact generateIdGo_exhaust_spec existing (fun i => 1000 + u i) 10 0
      (fun j _ hj2 => h j (by omega))

/-- Witness for C9: with only id 1005 taken and draws 5, 6, 7, ... the
first attempt collides and the second returns 1006. -/
theorem unique_id_generator_spec_witness :
    generateUniqueId (fun n => n == 1005) (fun i => (5 + i) % 9000)
      = Except.ok 1006 := by
  have h := (unique_id_generator_spec (fun n => n == 1005) (fun i => (5 + i) % 9000)
      (fun i => Nat.mod_lt _ (by decide))).2.1 1 (by decide) (by decide)
      (by
        intro j hj
        have hj0 : j = 0 := by omega
        subst hj0
        decide)
  simpa using h

/-- One donorInfo write never clears an already-set regular-donor flag. -/
theorem donorOp_flag_mono (donor : DonorInfo) (op : DonorOp)
    (h : donor.isRegularDonor = true) :
    (applyDonorOp donor op).isRegularDonor = true := by
  cases op with
  | dashboard ds ps =>
      simp only [applyDonorOp, donorDashboardUpdate]
      split
      · rfl
      · exact h
  | donate => exact h

/-- No sequence of donorInfo writes clears an already-set flag. -/
theorem donorOps_flag_mono :
    ∀ (ops : List DonorOp) (donor : DonorInfo), donor.isRegularDonor = true →
      (applyDonorOps donor ops).isRegularDonor = true := by
  intro ops
  induction ops with
  | nil => intro donor h; exact h
  | cons op rest ih =>
      intro donor h
      exact ih _ (donorOp_flag_mono donor op h)

/-- Claim C10 (confirmed): rendering the donor dashboard mutates the donor
record — whenever the donation count reaches 5 or the payment sum reaches
1000 it sets `isRegularDonor` and persists it — and no donorInfo-writing
operation in the repository ever resets the flag, so once set it holds in
every later state. -/
theorem regular_donor_flag_monotone (donor : DonorInfo) (ds : List Donation)
    (ps : List Payment) (ops : List DonorOp)
    (hcond : 5 ≤ ds.length ∨ 1000 ≤ (ps.map (fun p => p.amount)).sum) :
    (donorDashboardUpdate donor ds ps).isRegularDonor = true
    ∧ (∀ (d : DonorInfo) (op : DonorOp), d.isRegularDonor = true →
        (applyDonorOp d op).isRegularDonor = true)
    ∧ (donor.isRegularDonor = true →
        (applyDonorOps donor ops).isRegularDonor = true) := by
  refine ⟨?_, fun d op h => donorOp_flag_mono d op h,
    fun h => donorOps_flag_mono ops donor h⟩
  simp only [donorDashboardUpdate]
  rw [if_pos hcond]

/-- Witness for C10: a donor with a single 1000-unit payment gets the flag
set by the dashboard render. -/
theorem regular_donor_flag_monotone_witness :
    (donorDashboardUpdate { totalDonations := 0, isRegularDonor := false }
      [] [bigPayment]).isRegularDonor = true :=
  (regular_donor_flag_monotone { totalDonations := 0, isRegularDonor := false }
    [] [bigPayment] [] (Or.inr (by decide))).1

end EduPay
